import Mathlib

/-!
Verification of the spotify-api client wrapper.

Shallow embedding of the two Python source files:
  * `src/spotify_api/wrapper.py` — modelled in namespace `spotify_api`
  * `src/spotify/api.py`         — modelled in namespace `spotify`

Network effects are modelled by an environment `Env : HttpRequest → HttpResponse`
(the remote servers' behaviour) and by returning, next to the result, the list
of HTTP requests the call issued (its network trace).  Python exceptions are
modelled with `Except PyErr`; the mutable `_auth_header` field of `SpotifyAPI`
is modelled by explicit state passing.
-/

/-- HTTP method; the client only issues GET and POST. -/
inductive Method where
  | get
  | post
deriving Repr, DecidableEq, BEq

/-- A JSON value, as produced by `response.json()`. -/
inductive Json where
  | null
  | bool (b : Bool)
  | num (n : Int)
  | str (s : String)
  | arr (elems : List Json)
  | obj (fields : List (String × Json))
deriving Repr

/-- Python `d[k]` on a JSON object: first binding of the key, if any. -/
def Json.lookup : Json → String → Option Json
  | .obj fields, k => List.lookup k fields
  | _, _ => Option.none

/-- Python `str()` / f-string formatting of a JSON value, for the scalar cases
the client can meet (the token in `f"Bearer {token}"`).  Python's `repr`-style
printing of containers is not needed by any claim and is not modelled exactly. -/
def Json.pyStr : Json → String
  | .str s => s
  | .num n => toString n
  | .null => "None"
  | .bool true => "True"
  | .bool false => "False"
  | .arr _ => "<list>"
  | .obj _ => "<dict>"

/-- A value of a query parameter as passed to `requests.get(params=...)`:
a string, an int, a list of strings, or Python `None`. -/
inductive PVal where
  | str (s : String)
  | int (n : Int)
  | list (xs : List String)
  | none
deriving Repr, DecidableEq, BEq

/-- An outbound HTTP request: method, URL, headers, query parameters
(still in the structured form handed to `requests`), and form body. -/
structure HttpRequest where
  method : Method
  url : String
  headers : List (String × String)
  params : List (String × PVal)
  data : List (String × String)
deriving Repr, DecidableEq, BEq

/-- An HTTP response: status code and JSON body (``response.json()``). -/
structure HttpResponse where
  status : Nat
  body : Json
deriving Repr

/-- The remote servers, as a pure function from request to response. -/
def Env : Type := HttpRequest → HttpResponse

/-- The Python exceptions the client can raise. -/
inductive PyErr where
  | httpError (status : Nat)
  | httpErrorMsg (msg : String)
  | valueError (msg : String)
  | keyError (key : String)
deriving Repr, DecidableEq, BEq

/-- `requests`' encoding of one query parameter into the URL query string:
`None` values are dropped, ints are stringified, and a list value becomes one
`key=value` pair per element (repeated keys). -/
def encodePVal : String → PVal → List (String × String)
  | _, .none => []
  | k, .str s => [(k, s)]
  | k, .int n => [(k, toString n)]
  | k, .list xs => xs.map (fun x => (k, x))

/-- `requests`' encoding of the whole `params` mapping into query pairs. -/
def encodeParams (ps : List (String × PVal)) : List (String × String) :=
  (ps.map (fun p => encodePVal p.1 p.2)).flatten

/-- The keys that actually appear in a request's encoded query string. -/
def queryKeys (r : HttpRequest) : List String :=
  (encodeParams r.params).map Prod.fst

/-- `Response.raise_for_status()`: raises `requests.HTTPError` carrying the
status code exactly when `400 ≤ status < 600`. -/
def raise_for_status (r : HttpResponse) : Except PyErr Unit :=
  if 400 ≤ r.status ∧ r.status < 600 then .error (.httpError r.status) else .ok ()

/-- Python truthiness of an `Optional[str]` (`if market:`):
`None` and the empty string are falsy. -/
def truthyOpt : Option String → Bool
  | Option.none => false
  | Option.some s => !s.isEmpty

/-- An `Optional[str]` placed directly as a query-parameter value. -/
def optPVal : Option String → PVal
  | Option.none => PVal.none
  | Option.some s => PVal.str s

/-- Python `dict.update`: overwrite existing keys, append new ones. -/
def dictUpdate (d kw : List (String × PVal)) : List (String × PVal) :=
  kw.foldl (fun acc p =>
    if acc.any (fun q => q.1 == p.1) then
      acc.map (fun q => if q.1 == p.1 then (q.1, p.2) else q)
    else acc ++ [p]) d

/-- UTF-8 encoding of one character (`str.encode("utf-8")`, per char). -/
def utf8Bytes (c : Char) : List Nat :=
  let n := c.toNat
  if n < 0x80 then [n]
  else if n < 0x800 then [0xC0 + n / 64, 0x80 + n % 64]
  else if n < 0x10000 then
    [0xE0 + n / 4096, 0x80 + (n / 64) % 64, 0x80 + n % 64]
  else
    [0xF0 + n / 262144, 0x80 + (n / 4096) % 64, 0x80 + (n / 64) % 64, 0x80 + n % 64]

/-- UTF-8 bytes of a string. -/
def strBytes (s : String) : List Nat :=
  (s.data.map utf8Bytes).flatten

/-- The base64 alphabet (RFC 4648). -/
def b64Alphabet : List Char :=
  "ABCDEFGHIJKLMNOPQRSTUVWXYZabcdefghijklmnopqrstuvwxyz0123456789+/".data

/-- The base64 digit for a 6-bit value. -/
def b64Digit (n : Nat) : Char := b64Alphabet.getD n '?'

/-- Base64 encoding of a byte list, three bytes at a time, `=`-padded. -/
def b64Chunks : List Nat → List Char
  | [] => []
  | [a] => [b64Digit (a / 4), b64Digit (a % 4 * 16), '=', '=']
  | [a, b] => [b64Digit (a / 4), b64Digit (a % 4 * 16 + b / 16), b64Digit (b % 16 * 4), '=']
  | a :: b :: c :: rest =>
      b64Digit (a / 4) :: b64Digit (a % 4 * 16 + b / 16) ::
      b64Digit (b % 16 * 4 + c / 64) :: b64Digit (c % 64) :: b64Chunks rest

/-- `base64.b64encode(s.encode("utf-8")).decode("utf-8")`. -/
def b64encode (s : String) : String := String.mk (b64Chunks (strBytes s))

namespace spotify_api

namespace SpotifyAPI

/-- The credentials held by a `SpotifyAPI` instance (`client_id`, `client_secret`). -/
structure Client where
  client_id : String
  client_secret : String
deriving Repr, DecidableEq

/-- The mutable state of a `SpotifyAPI` instance: the `_auth_header` field,
`None` until the first successful token exchange. -/
structure State where
  _auth_header : Option (List (String × String))
deriving Repr, DecidableEq

/-- `__init__`: `self._auth_header = None`. -/
def initState : State := ⟨Option.none⟩

/-- `SpotifyAPI.BASE_URL`. -/
def BASE_URL : String := "https://api.spotify.com"

/-- The token-exchange request built by `_get_auth_header`:
POST to the accounts host with a Basic header over
`base64(client_id + ":" + client_secret)` and body `grant_type=client_credentials`. -/
def token_request (c : Client) : HttpRequest :=
  { method := .post
  , url := "https://accounts.spotify.com/api/token"
  , headers :=
      [("Authorization", "Basic " ++ b64encode (c.client_id ++ ":" ++ c.client_secret))]
  , params := []
  , data := [("grant_type", "client_credentials")] }

/-- `SpotifyAPI._get_auth_header`: POST the token request, `raise_for_status()`,
then read `access_token` from the JSON body and build the Bearer header. -/
def _get_auth_header (env : Env) (c : Client) :
    Except PyErr (List (String × String)) × List HttpRequest :=
  let req := token_request c
  let response := env req
  match raise_for_status response with
  | .error e => (.error e, [req])
  | .ok _ =>
    match response.body.lookup "access_token" with
    | Option.none => (.error (.keyError "access_token"), [req])
    | Option.some token => (.ok [("Authorization", "Bearer " ++ token.pyStr)], [req])

/-- The `auth_header` property: return `_auth_header` if set, otherwise call
`_get_auth_header`, store its result and return it; on failure the field stays
unset and the exception propagates. -/
def auth_header (env : Env) (c : Client) (s : State) :
    Except PyErr (List (String × String)) × State × List HttpRequest :=
  match s._auth_header with
  | Option.some h => (.ok h, s, [])
  | Option.none =>
    match _get_auth_header env c with
    | (.ok h, tr) => (.ok h, ⟨Option.some h⟩, tr)
    | (.error e, tr) => (.error e, s, tr)

/-- `response.json()` after `raise_for_status()`: the error, or the parsed body. -/
def raise_then_json (r : HttpResponse) : Except PyErr Json :=
  match raise_for_status r with
  | .error e => .error e
  | .ok _ => .ok r.body

/-- The GET request `SpotifyAPI.get` builds: `BASE_URL` joined to the endpoint
with a slash, the (memoized) authorization header, and the query parameters. -/
def resource_request (h : List (String × String)) (endpoint : String)
    (params : List (String × PVal)) : HttpRequest :=
  { method := .get, url := BASE_URL ++ "/" ++ endpoint, headers := h
  , params := params, data := [] }

/-- `SpotifyAPI.get`: concatenate `BASE_URL` and the endpoint, evaluate the
`auth_header` property (which may itself POST), perform the GET with the query
parameters, `raise_for_status()`, and return the parsed JSON body.
`params=None` is modelled as the empty parameter list. -/
def get (env : Env) (c : Client) (s : State) (endpoint : String)
    (params : List (String × PVal)) :
    Except PyErr Json × State × List HttpRequest :=
  let a := auth_header env c s
  match a.1 with
  | .error e => (.error e, a.2)
  | .ok h =>
    let req := resource_request h endpoint params
    (raise_then_json (env req), a.2.1, a.2.2 ++ [req])

end SpotifyAPI

open SpotifyAPI (Client State)

/-- `except requests.HTTPError as e: print(...); return None` — an HTTP error
from the dispatcher is swallowed into a `None` result; everything else
propagates and a success is wrapped in `some`. -/
def except_http_return_none : Except PyErr Json → Except PyErr (Option Json)
  | .ok j => .ok (Option.some j)
  | .error (.httpError _) => .ok Option.none
  | .error e => .error e

/-- `except requests.HTTPError as e: raise requests.HTTPError(f"<ctx>: {e.response.status_code}") from e`
— an HTTP error from the dispatcher is re-raised as a new `HTTPError` whose
message is the given context followed by the status code. -/
def except_http_reraise (ctx : String) : Except PyErr Json → Except PyErr Json
  | .error (.httpError st) => .error (.httpErrorMsg (ctx ++ toString st))
  | r => r

namespace TracksAPI

/-- `TracksAPI.MAX_TRACK_IDS_PER_REQUEST`. -/
def MAX_TRACK_IDS_PER_REQUEST : Nat := 100

/-- `TracksAPI.get_track`: GET `v1/tracks/{track_id}` with the market parameter
only when `market` is truthy; an `HTTPError` is printed and swallowed into `None`. -/
def get_track (env : Env) (c : Client) (s : State) (track_id : String)
    (market : Option String) :
    Except PyErr (Option Json) × State × List HttpRequest :=
  let endpoint := "v1/tracks/" ++ track_id
  let params :=
    if truthyOpt market then [("market", PVal.str (market.getD ""))] else []
  let r := SpotifyAPI.get env c s endpoint params
  (except_http_return_none r.1, r.2)

/-- `TracksAPI.get_tracks`: more than `MAX_TRACK_IDS_PER_REQUEST` ids raises a
`ValueError` that the method itself catches, prints and turns into `None` with
no network call; otherwise the ids are comma-joined into the `ids` parameter,
the market parameter is added only when truthy, and an `HTTPError` is
swallowed into `None`. -/
def get_tracks (env : Env) (c : Client) (s : State) (track_ids : List String)
    (market : Option String) :
    Except PyErr (Option Json) × State × List HttpRequest :=
  if track_ids.length > MAX_TRACK_IDS_PER_REQUEST then
    (.ok Option.none, s, [])
  else
    let endpoint := "v1/tracks"
    let params := [("ids", PVal.str (String.intercalate "," track_ids))]
    let params :=
      if truthyOpt market then params ++ [("market", PVal.str (market.getD ""))] else params
    let r := SpotifyAPI.get env c s endpoint params
    (except_http_return_none r.1, r.2)

/-- `TracksAPI.get_tracks_audio_features`: same shape as `get_tracks`
(over-ceiling `ValueError` caught and turned into `None`, no market parameter). -/
def get_tracks_audio_features (env : Env) (c : Client) (s : State)
    (track_ids : List String) :
    Except PyErr (Option Json) × State × List HttpRequest :=
  if track_ids.length > MAX_TRACK_IDS_PER_REQUEST then
    (.ok Option.none, s, [])
  else
    let endpoint := "v1/audio-features"
    let params := [("ids", PVal.str (String.intercalate "," track_ids))]
    let r := SpotifyAPI.get env c s endpoint params
    (except_http_return_none r.1, r.2)

/-- `TracksAPI.get_recommendations`: the three seed lists are placed in the
params mapping as list values (not joined), market is added only when truthy,
`kwargs` are merged with `dict.update`; an `HTTPError` is swallowed into `None`. -/
def get_recommendations (env : Env) (c : Client) (s : State)
    (seed_artists seed_genres seed_tracks : List String)
    (market : Option String) (limit : Int) (kwargs : List (String × PVal)) :
    Except PyErr (Option Json) × State × List HttpRequest :=
  let endpoint := "v1/recommendations"
  let params : List (String × PVal) :=
    [("limit", PVal.int limit),
     ("seed_artists", PVal.list seed_artists),
     ("seed_genres", PVal.list seed_genres),
     ("seed_tracks", PVal.list seed_tracks)]
  let params :=
    if truthyOpt market then params ++ [("market", PVal.str (market.getD ""))] else params
  let params := dictUpdate params kwargs
  let r := SpotifyAPI.get env c s endpoint params
  (except_http_return_none r.1, r.2)

end TracksAPI

namespace ArtistsAPI

/-- `ArtistsAPI.MAX_ARTISTS_PER_REQUEST`. -/
def MAX_ARTISTS_PER_REQUEST : Nat := 100

/-- `ArtistsAPI.get_artists`: more than `MAX_ARTISTS_PER_REQUEST` ids raises a
`ValueError` that is caught and re-raised as `ValueError("Failed to get artists")`
with no network call; otherwise the ids are comma-joined and an `HTTPError`
is re-raised with context. -/
def get_artists (env : Env) (c : Client) (s : State) (artist_ids : List String) :
    Except PyErr Json × State × List HttpRequest :=
  if artist_ids.length > MAX_ARTISTS_PER_REQUEST then
    (.error (.valueError "Failed to get artists"), s, [])
  else
    let params := [("ids", PVal.str (String.intercalate "," artist_ids))]
    let r := SpotifyAPI.get env c s "v1/artists" params
    (except_http_reraise "Failed to get artists: " r.1, r.2)

/-- `ArtistsAPI.get_artist_albums`: `include_groups` and `market` are placed in
the params mapping unconditionally (as `None` when unset, which `requests`
drops from the query); an `HTTPError` is re-raised with context. -/
def get_artist_albums (env : Env) (c : Client) (s : State) (artist_id : String)
    (include_groups market : Option String) (limit offset : Int) :
    Except PyErr Json × State × List HttpRequest :=
  let endpoint := "v1/artists/" ++ artist_id ++ "/albums"
  let params : List (String × PVal) :=
    [("include_groups", optPVal include_groups),
     ("market", optPVal market),
     ("limit", PVal.int limit),
     ("offset", PVal.int offset)]
  let r := SpotifyAPI.get env c s endpoint params
  (except_http_reraise ("Failed to get artist albums for artist ID " ++ artist_id ++ ": ") r.1, r.2)

/-- `ArtistsAPI.get_artist_top_tracks`: the params mapping is `{"market": market}`
unconditionally (`None` when unset, which `requests` drops from the query);
an `HTTPError` is re-raised with context. -/
def get_artist_top_tracks (env : Env) (c : Client) (s : State) (artist_id : String)
    (market : Option String) :
    Except PyErr Json × State × List HttpRequest :=
  let endpoint := "v1/artists/" ++ artist_id ++ "/top-tracks"
  let params : List (String × PVal) := [("market", optPVal market)]
  let r := SpotifyAPI.get env c s endpoint params
  (except_http_reraise ("Failed to get artist top tracks for artist ID " ++ artist_id ++ ": ") r.1, r.2)

end ArtistsAPI

namespace AlbumsAPI

/-- `AlbumsAPI.MAX_ALBUMS_PER_REQUEST`. -/
def MAX_ALBUMS_PER_REQUEST : Nat := 20

/-- `AlbumsAPI.MAX_TRACKS_PER_ALBUM` (an `Int`, compared against the Python
`limit` argument). -/
def MAX_TRACKS_PER_ALBUM : Int := 50

/-- `AlbumsAPI.MAX_ALBUMS_TO_RETURN`. -/
def MAX_ALBUMS_TO_RETURN : Int := 50

/-- `AlbumsAPI.get_albums`: more than `MAX_ALBUMS_PER_REQUEST` ids raises a
`ValueError` that is caught and re-raised as `ValueError("Failed to get albums")`
with no network call; otherwise the ids are comma-joined, market added only
when truthy, and an `HTTPError` is re-raised with context. -/
def get_albums (env : Env) (c : Client) (s : State) (album_ids : List String)
    (market : Option String) :
    Except PyErr Json × State × List HttpRequest :=
  if album_ids.length > MAX_ALBUMS_PER_REQUEST then
    (.error (.valueError "Failed to get albums"), s, [])
  else
    let params := [("ids", PVal.str (String.intercalate "," album_ids))]
    let params :=
      if truthyOpt market then params ++ [("market", PVal.str (market.getD ""))] else params
    let r := SpotifyAPI.get env c s "v1/albums" params
    (except_http_reraise "Failed to get albums: " r.1, r.2)

/-- `AlbumsAPI.get_album_tracks`: `limit > MAX_TRACKS_PER_ALBUM` raises a
`ValueError` that no `except` clause catches (only `HTTPError` is), so it
propagates to the caller with no network call; otherwise GET
`v1/albums/{id}/tracks` with market (possibly `None`), limit and offset. -/
def get_album_tracks (env : Env) (c : Client) (s : State) (album_id : String)
    (market : Option String) (limit offset : Int) :
    Except PyErr Json × State × List HttpRequest :=
  if limit > MAX_TRACKS_PER_ALBUM then
    (.error (.valueError "Exceeded maximum tracks per album per request"), s, [])
  else
    let endpoint := "v1/albums/" ++ album_id ++ "/tracks"
    let params : List (String × PVal) :=
      [("market", optPVal market), ("limit", PVal.int limit), ("offset", PVal.int offset)]
    let r := SpotifyAPI.get env c s endpoint params
    (except_http_reraise ("Failed to get album tracks for album ID " ++ album_id ++ ": ") r.1, r.2)

/-- `AlbumsAPI.get_new_releases`: `limit > MAX_ALBUMS_TO_RETURN` raises a
`ValueError` that is caught and re-raised as
`ValueError("Failed to get new releases")` with no network call; otherwise GET
`v1/browse/new-releases` with limit and offset. -/
def get_new_releases (env : Env) (c : Client) (s : State) (limit offset : Int) :
    Except PyErr Json × State × List HttpRequest :=
  if limit > MAX_ALBUMS_TO_RETURN then
    (.error (.valueError "Failed to get new releases"), s, [])
  else
    let params : List (String × PVal) :=
      [("limit", PVal.int limit), ("offset", PVal.int offset)]
    let r := SpotifyAPI.get env c s "v1/browse/new-releases" params
    (except_http_reraise "Failed to get new releases: " r.1, r.2)

end AlbumsAPI

end spotify_api

namespace spotify

namespace API

/-- The token request built by `API.get_auth_header` in `src/spotify/api.py`
(the `auth_options` dict): POST to the accounts host with the Basic header and
`grant_type=client_credentials` body. -/
def auth_request (client_id client_secret : String) : HttpRequest :=
  { method := .post
  , url := "https://accounts.spotify.com/api/token"
  , headers :=
      [("Authorization", "Basic " ++ b64encode (client_id ++ ":" ++ client_secret))]
  , params := []
  , data := [("grant_type", "client_credentials")] }

/-- `API.get_auth_header`: POST the token request; on status 200, read
`access_token` and return the Bearer header.  On any other status the code
evaluates `RuntimeError("Failed to get token")` WITHOUT raising it, so the
function falls off the end and returns Python `None`.  Every call performs
the POST — there is no memoization in this variant. -/
def get_auth_header (env : Env) (client_id client_secret : String) :
    Except PyErr (Option (List (String × String))) × List HttpRequest :=
  let req := auth_request client_id client_secret
  let response := env req
  if response.status == 200 then
    match response.body.lookup "access_token" with
    | Option.none => (.error (.keyError "access_token"), [req])
    | Option.some token =>
        (.ok (Option.some [("Authorization", "Bearer " ++ token.pyStr)]), [req])
  else
    (.ok Option.none, [req])

/-- The GET request `API.get` issues: the caller-supplied full URL and headers
(`None` modelled as no headers), no query parameters. -/
def get_request (url : String) (headers : Option (List (String × String))) : HttpRequest :=
  { method := .get, url := url, headers := headers.getD [], params := [], data := [] }

/-- `API.get`: `return requests.get(url, headers=headers)` — performs the GET
on the caller-supplied full URL with the caller-supplied headers and returns
the raw `Response`: no status check, no JSON parsing, no error raised. -/
def get (env : Env) (url : String) (headers : Option (List (String × String))) :
    HttpResponse × List HttpRequest :=
  let req := get_request url headers
  (env req, [req])

end API

namespace SongAPI

/-- `SongAPI.get_song`: call `API.get_auth_header` (a fresh token POST on every
call), then GET the track URL with whatever it returned — even `None` — and
return `response.json()` with no status check. -/
def get_song (env : Env) (client_id client_secret : String) (song_id : String) :
    Except PyErr Json × List HttpRequest :=
  match API.get_auth_header env client_id client_secret with
  | (.error e, tr) => (.error e, tr)
  | (.ok hdr, tr) =>
    let r := API.get env ("https://api.spotify.com/v1/tracks/" ++ song_id) hdr
    (.ok r.1.body, tr ++ r.2)

end SongAPI

end spotify

/-! ### Network-trace observations -/

/-- Whether a request is the token-exchange POST to the accounts host. -/
def isTokenRequest (r : HttpRequest) : Bool :=
  r.method == Method.post && r.url == "https://accounts.spotify.com/api/token"

/-- Number of token-exchange POSTs in a network trace. -/
def countTokenCalls (tr : List HttpRequest) : Nat :=
  (tr.filter isTokenRequest).length

/-- Whether a request is a resource GET. -/
def isResourceRequest (r : HttpRequest) : Bool :=
  r.method == Method.get

/-- Number of resource GETs in a network trace. -/
def countResourceCalls (tr : List HttpRequest) : Nat :=
  (tr.filter isResourceRequest).length

/-- Valid credentials: the token endpoint answers this client's token request
with a success status and a body carrying an `access_token` field. -/
def tokenOk (env : Env) (c : spotify_api.SpotifyAPI.Client) : Prop :=
  (env (spotify_api.SpotifyAPI.token_request c)).status < 400 ∧
  ∃ t, (env (spotify_api.SpotifyAPI.token_request c)).body.lookup "access_token" = Option.some t

/-- A client-instance lifetime: a sequence of dispatcher calls (every resource
accessor funnels through `SpotifyAPI.get`), threading the instance state and
accumulating the network trace. -/
def run_gets (env : Env) (c : spotify_api.SpotifyAPI.Client) :
    List (String × List (String × PVal)) → spotify_api.SpotifyAPI.State →
    spotify_api.SpotifyAPI.State × List HttpRequest
  | [], s => (s, [])
  | (e, ps) :: rest, s =>
    let r := spotify_api.SpotifyAPI.get env c s e ps
    let r' := run_gets env c rest r.2.1
    (r'.1, r.2.2 ++ r'.2)

/-! ### Concrete fixtures for witnesses and counterexamples -/

/-- A concrete client. -/
def c0 : spotify_api.SpotifyAPI.Client := ⟨"x", "x"⟩

/-- A concrete memoized authorization header. -/
def hdr0 : List (String × String) := [("Authorization", "Bearer tok")]

/-- An environment whose every response is 200 with an `access_token` body. -/
def env200 : Env := fun _ => ⟨200, Json.obj [("access_token", Json.str "tok")]⟩

/-- An environment whose every response is 401 (failing token endpoint). -/
def env401 : Env := fun _ => ⟨401, Json.obj []⟩

/-- An environment where the token exchange succeeds but every resource GET
answers 404. -/
def env404 : Env := fun r =>
  if r.method == Method.post then ⟨200, Json.obj [("access_token", Json.str "tok")]⟩
  else ⟨404, Json.obj [("error", Json.str "Not Found")]⟩

/-- An environment whose every response is 304 (not 2xx, but below 400). -/
def env304 : Env := fun _ => ⟨304, Json.str "cached"⟩

/-- Token-exchange budget still available in a state: one before the header is
memoized, none afterwards. -/
def authBudget (s : spotify_api.SpotifyAPI.State) : Nat :=
  match s._auth_header with
  | Option.some _ => 0
  | Option.none => 1

/-! ### Helper lemmas about the wrapper's token cache and dispatcher -/

/-- Sanity check of the base64 embedding against
`base64.b64encode(b"x:x") = b"eDp4"`. -/
theorem b64encode_sample : b64encode "x:x" = "eDp4" := rfl

namespace spotify_api

namespace SpotifyAPI

theorem _get_auth_header_ok (env : Env) (c : Client) (t : Json)
    (hst : (env (token_request c)).status < 400)
    (ht : (env (token_request c)).body.lookup "access_token" = Option.some t) :
    _get_auth_header env c =
      (.ok [("Authorization", "Bearer " ++ t.pyStr)], [token_request c]) := by
  have h400 : ¬(400 ≤ (env (token_request c)).status ∧
      (env (token_request c)).status < 600) := by omega
  simp only [_get_auth_header, raise_for_status, if_neg h400, ht]

theorem auth_header_memoized (env : Env) (c : Client) (h : List (String × String)) :
    auth_header env c ⟨Option.some h⟩ = (.ok h, ⟨Option.some h⟩, []) := rfl

theorem auth_header_fresh (env : Env) (c : Client) (t : Json)
    (hst : (env (token_request c)).status < 400)
    (ht : (env (token_request c)).body.lookup "access_token" = Option.some t) :
    auth_header env c ⟨Option.none⟩ =
      (.ok [("Authorization", "Bearer " ++ t.pyStr)],
       ⟨Option.some [("Authorization", "Bearer " ++ t.pyStr)]⟩, [token_request c]) := by
  simp only [auth_header, _get_auth_header_ok env c t hst ht]

theorem get_memoized (env : Env) (c : Client) (h : List (String × String))
    (e : String) (ps : List (String × PVal)) :
    get env c ⟨Option.some h⟩ e ps =
      (raise_then_json (env (resource_request h e ps)), ⟨Option.some h⟩,
       [resource_request h e ps]) := rfl

theorem get_fresh (env : Env) (c : Client) (t : Json)
    (e : String) (ps : List (String × PVal))
    (hst : (env (token_request c)).status < 400)
    (ht : (env (token_request c)).body.lookup "access_token" = Option.some t) :
    get env c ⟨Option.none⟩ e ps =
      (raise_then_json
          (env (resource_request [("Authorization", "Bearer " ++ t.pyStr)] e ps)),
       ⟨Option.some [("Authorization", "Bearer " ++ t.pyStr)]⟩,
       [token_request c,
        resource_request [("Authorization", "Bearer " ++ t.pyStr)] e ps]) := by
  simp only [get, auth_header_fresh env c t hst ht, List.cons_append, List.nil_append]

end SpotifyAPI

end spotify_api

theorem countTokenCalls_append (a b : List HttpRequest) :
    countTokenCalls (a ++ b) = countTokenCalls a + countTokenCalls b := by
  simp [countTokenCalls, List.filter_append]

theorem countTokenCalls_resource (h : List (String × String)) (e : String)
    (ps : List (String × PVal)) :
    countTokenCalls [spotify_api.SpotifyAPI.resource_request h e ps] = 0 := rfl

theorem countTokenCalls_token_resource (c : spotify_api.SpotifyAPI.Client)
    (h : List (String × String)) (e : String) (ps : List (String × PVal)) :
    countTokenCalls [spotify_api.SpotifyAPI.token_request c,
      spotify_api.SpotifyAPI.resource_request h e ps] = 1 := rfl

theorem run_gets_budget (env : Env) (c : spotify_api.SpotifyAPI.Client)
    (hok : tokenOk env c) :
    ∀ (calls : List (String × List (String × PVal))) (s : spotify_api.SpotifyAPI.State),
      countTokenCalls (run_gets env c calls s).2 ≤ authBudget s := by
  intro calls
  induction calls with
  | nil => intro s; simp [run_gets, countTokenCalls]
  | cons hd tl ih =>
    intro s
    obtain ⟨e, ps⟩ := hd
    obtain ⟨ah⟩ := s
    cases ah with
    | some h =>
      simp only [run_gets, spotify_api.SpotifyAPI.get_memoized env c h e ps,
        countTokenCalls_append, countTokenCalls_resource]
      have h2 := ih ⟨Option.some h⟩
      simp [authBudget] at h2 ⊢
      exact h2
    | none =>
      obtain ⟨hst, t, ht⟩ := hok
      simp only [run_gets, spotify_api.SpotifyAPI.get_fresh env c t e ps hst ht,
        countTokenCalls_append, countTokenCalls_token_resource]
      have h2 := ih ⟨Option.some [("Authorization", "Bearer " ++ t.pyStr)]⟩
      simp [authBudget] at h2 ⊢
      omega

/-! ### Claim theorems -/

/-- Claim C1 (amended): the memoization invariant holds for the `SpotifyAPI`
client of `wrapper.py`: with valid credentials, at most one token-exchange
POST occurs across any sequence of dispatcher calls on one instance; reading
`auth_header` in a memoized state returns the stored header with no network
call; the first read on a fresh instance performs exactly the token-exchange
POST and memoizes the result.  (The claim as frozen also covers the legacy
`spotify/api.py` client, which violates it: see `claim_C1_counterexample`.) -/
theorem claim_C1 (env : Env) (c : spotify_api.SpotifyAPI.Client)
    (hok : tokenOk env c) (calls : List (String × List (String × PVal))) :
    countTokenCalls (run_gets env c calls spotify_api.SpotifyAPI.initState).2 ≤ 1 ∧
    (∀ h : List (String × String),
        spotify_api.SpotifyAPI.auth_header env c ⟨Option.some h⟩
          = (.ok h, ⟨Option.some h⟩, [])) ∧
    (∃ hdr : List (String × String),
        spotify_api.SpotifyAPI.auth_header env c spotify_api.SpotifyAPI.initState
          = (.ok hdr, ⟨Option.some hdr⟩, [spotify_api.SpotifyAPI.token_request c])) := by
  refine ⟨?_, fun h => rfl, ?_⟩
  · have h1 := run_gets_budget env c hok calls spotify_api.SpotifyAPI.initState
    simpa [authBudget, spotify_api.SpotifyAPI.initState] using h1
  · obtain ⟨hst, t, ht⟩ := hok
    exact ⟨_, spotify_api.SpotifyAPI.auth_header_fresh env c t hst ht⟩

/-- Witness for C1: concrete valid credentials and two dispatcher calls. -/
theorem claim_C1_witness :
    tokenOk env200 c0 ∧
    countTokenCalls (run_gets env200 c0 [("v1/tracks/a", []), ("v1/tracks/b", [])]
      spotify_api.SpotifyAPI.initState).2 ≤ 1 := by
  have hok : tokenOk env200 c0 := ⟨by decide, ⟨Json.str "tok", rfl⟩⟩
  exact ⟨hok, (claim_C1 env200 c0 hok [("v1/tracks/a", []), ("v1/tracks/b", [])]).1⟩

/-- Counterexample to C1 as frozen: two accessor calls (`get_song`) with the
same valid credentials on the legacy `spotify/api.py` client issue TWO
token-exchange POSTs — `API.get_auth_header` performs the exchange on every
call and memoizes nothing, so "at most one token-exchange per client
instance" fails there. -/
theorem claim_C1_counterexample :
    countTokenCalls ((spotify.SongAPI.get_song env200 "x" "x" "a").2 ++
      (spotify.SongAPI.get_song env200 "x" "x" "b").2) = 2 := rfl

/-- Claim C2 (code bug in `spotify/api.py`, evaluated at the failing input):
with the token endpoint answering 401, the wrapper's `_get_auth_header` does
fail with an HTTP error carrying status 401 and its dispatcher issues no
resource GET — but the legacy `API.get_auth_header` merely evaluates
`RuntimeError("Failed to get token")` without raising it, falls off the end
returning `None`, and `get_song` then still issues the resource GET (with no
Authorization header), contradicting the claim. -/
theorem claim_C2 :
    spotify_api.SpotifyAPI._get_auth_header env401 c0
      = (.error (.httpError 401), [spotify_api.SpotifyAPI.token_request c0]) ∧
    countResourceCalls (spotify_api.SpotifyAPI.get env401 c0
      spotify_api.SpotifyAPI.initState "v1/tracks/t" []).2.2 = 0 ∧
    (spotify.API.get_auth_header env401 "x" "x").1 = .ok Option.none ∧
    countResourceCalls (spotify.SongAPI.get_song env401 "x" "x" "t").2 = 1 :=
  ⟨rfl, rfl, rfl, rfl⟩

/-- Claim C3 (amended): an over-ceiling ID list never issues a network call,
but only `get_artists` (ceiling 100) and `get_albums` (ceiling 20) fail with
the `ValueError`; `get_tracks` and `get_tracks_audio_features` (ceiling 100)
catch their own `ValueError` and return `None`.  At or below the ceiling the
request is dispatched with the comma-joined ids (ceiling inclusive), and a
2xx response yields a successful result. -/
theorem claim_C3 (env : Env) (c : spotify_api.SpotifyAPI.Client)
    (s : spotify_api.SpotifyAPI.State) (ids : List String)
    (market : Option String) (h : List (String × String)) :
    (100 < ids.length →
        spotify_api.TracksAPI.get_tracks env c s ids market = (.ok Option.none, s, [])
      ∧ spotify_api.TracksAPI.get_tracks_audio_features env c s ids
          = (.ok Option.none, s, [])
      ∧ spotify_api.ArtistsAPI.get_artists env c s ids
          = (.error (.valueError "Failed to get artists"), s, [])) ∧
    (20 < ids.length →
        spotify_api.AlbumsAPI.get_albums env c s ids market
          = (.error (.valueError "Failed to get albums"), s, [])) ∧
    (ids.length ≤ 100 →
        (spotify_api.TracksAPI.get_tracks env c ⟨Option.some h⟩ ids Option.none).2.2
          = [spotify_api.SpotifyAPI.resource_request h "v1/tracks"
              [("ids", PVal.str (String.intercalate "," ids))]]
      ∧ (spotify_api.ArtistsAPI.get_artists env c ⟨Option.some h⟩ ids).2.2
          = [spotify_api.SpotifyAPI.resource_request h "v1/artists"
              [("ids", PVal.str (String.intercalate "," ids))]]
      ∧ ((env (spotify_api.SpotifyAPI.resource_request h "v1/tracks"
              [("ids", PVal.str (String.intercalate "," ids))])).status = 200 →
          (spotify_api.TracksAPI.get_tracks env c ⟨Option.some h⟩ ids Option.none).1
            = .ok (Option.some (env (spotify_api.SpotifyAPI.resource_request h "v1/tracks"
                [("ids", PVal.str (String.intercalate "," ids))])).body))) ∧
    (ids.length ≤ 20 →
        (spotify_api.AlbumsAPI.get_albums env c ⟨Option.some h⟩ ids Option.none).2.2
          = [spotify_api.SpotifyAPI.resource_request h "v1/albums"
              [("ids", PVal.str (String.intercalate "," ids))]]) := by
  refine ⟨?_, ?_, ?_, ?_⟩
  · intro hgt
    refine ⟨?_, ?_, ?_⟩ <;>
      simp [spotify_api.TracksAPI.get_tracks,
        spotify_api.TracksAPI.get_tracks_audio_features,
        spotify_api.ArtistsAPI.get_artists,
        spotify_api.TracksAPI.MAX_TRACK_IDS_PER_REQUEST,
        spotify_api.ArtistsAPI.MAX_ARTISTS_PER_REQUEST, hgt]
  · intro hgt
    simp [spotify_api.AlbumsAPI.get_albums,
      spotify_api.AlbumsAPI.MAX_ALBUMS_PER_REQUEST, hgt]
  · intro hle
    have hno : ¬ 100 < ids.length := by omega
    refine ⟨?_, ?_, ?_⟩
    · simp [spotify_api.TracksAPI.get_tracks,
        spotify_api.TracksAPI.MAX_TRACK_IDS_PER_REQUEST, hno, truthyOpt,
        spotify_api.SpotifyAPI.get_memoized]
    · simp [spotify_api.ArtistsAPI.get_artists,
        spotify_api.ArtistsAPI.MAX_ARTISTS_PER_REQUEST, hno,
        spotify_api.SpotifyAPI.get_memoized]
    · intro h200
      have hr : ¬(400 ≤ (env (spotify_api.SpotifyAPI.resource_request h "v1/tracks"
          [("ids", PVal.str (String.intercalate "," ids))])).status ∧
          (env (spotify_api.SpotifyAPI.resource_request h "v1/tracks"
          [("ids", PVal.str (String.intercalate "," ids))])).status < 600) := by omega
      simp [spotify_api.TracksAPI.get_tracks,
        spotify_api.TracksAPI.MAX_TRACK_IDS_PER_REQUEST, hno, truthyOpt,
        spotify_api.SpotifyAPI.get_memoized, spotify_api.SpotifyAPI.raise_then_json,
        raise_for_status, hr, spotify_api.except_http_return_none]
  · intro hle
    have hno : ¬ 20 < ids.length := by omega
    simp [spotify_api.AlbumsAPI.get_albums,
      spotify_api.AlbumsAPI.MAX_ALBUMS_PER_REQUEST, hno, truthyOpt,
      spotify_api.SpotifyAPI.get_memoized]

/-- Witness for C3: 101 ids make `get_tracks` return `None` and `get_artists`
raise, 21 ids make `get_albums` raise, and exactly 100 ids dispatch the GET. -/
theorem claim_C3_witness :
    spotify_api.TracksAPI.get_tracks env200 c0 spotify_api.SpotifyAPI.initState
        (List.replicate 101 "i") Option.none
      = (.ok Option.none, spotify_api.SpotifyAPI.initState, []) ∧
    spotify_api.ArtistsAPI.get_artists env200 c0 spotify_api.SpotifyAPI.initState
        (List.replicate 101 "i")
      = (.error (.valueError "Failed to get artists"),
         spotify_api.SpotifyAPI.initState, []) ∧
    spotify_api.AlbumsAPI.get_albums env200 c0 spotify_api.SpotifyAPI.initState
        (List.replicate 21 "i") Option.none
      = (.error (.valueError "Failed to get albums"),
         spotify_api.SpotifyAPI.initState, []) ∧
    (spotify_api.TracksAPI.get_tracks env200 c0 ⟨Option.some hdr0⟩
        (List.replicate 100 "i") Option.none).2.2
      = [spotify_api.SpotifyAPI.resource_request hdr0 "v1/tracks"
          [("ids", PVal.str (String.intercalate "," (List.replicate 100 "i")))]] := by
  have h1 := claim_C3 env200 c0 spotify_api.SpotifyAPI.initState
    (List.replicate 101 "i") Option.none hdr0
  have h2 := claim_C3 env200 c0 spotify_api.SpotifyAPI.initState
    (List.replicate 21 "i") Option.none hdr0
  have h3 := claim_C3 env200 c0 spotify_api.SpotifyAPI.initState
    (List.replicate 100 "i") Option.none hdr0
  exact ⟨(h1.1 (by decide)).1, (h1.1 (by decide)).2.2,
    h2.2.1 (by decide), (h3.2.2.1 (by decide)).1⟩

/-- Counterexample to C3 as frozen: submitting 101 track ids to `get_tracks`
does NOT fail with a `ValueError` — the method catches its own `ValueError`,
prints it and returns `None` (with no network call). -/
theorem claim_C3_counterexample :
    spotify_api.TracksAPI.get_tracks env200 c0 spotify_api.SpotifyAPI.initState
      (List.replicate 101 "i") Option.none
        = (.ok Option.none, spotify_api.SpotifyAPI.initState, []) := rfl

/-- Claim C4 (amended): on a 404 answer to the single-track GET, the wrapper
dispatcher does raise an `HTTPError` carrying status 404, but `get_track`
catches it, prints, and returns `None` to its caller; the legacy
`SongAPI.get_song` performs no status check at all and returns the decoded
404 body. -/
theorem claim_C4 (env : Env) (c : spotify_api.SpotifyAPI.Client)
    (h : List (String × String)) (track_id : String)
    (h404 : (env (spotify_api.SpotifyAPI.resource_request h
        ("v1/tracks/" ++ track_id) [])).status = 404) :
    (spotify_api.SpotifyAPI.get env c ⟨Option.some h⟩ ("v1/tracks/" ++ track_id) []).1
      = .error (.httpError 404) ∧
    spotify_api.TracksAPI.get_track env c ⟨Option.some h⟩ track_id Option.none
      = (.ok Option.none, ⟨Option.some h⟩,
         [spotify_api.SpotifyAPI.resource_request h ("v1/tracks/" ++ track_id) []]) ∧
    (∀ (env2 : Env) (cid cs sid t : String) (j : Json),
      env2 (spotify.API.auth_request cid cs)
          = ⟨200, Json.obj [("access_token", Json.str t)]⟩ →
      env2 (spotify.API.get_request ("https://api.spotify.com/v1/tracks/" ++ sid)
          (Option.some [("Authorization", "Bearer " ++ t)])) = ⟨404, j⟩ →
      spotify.SongAPI.get_song env2 cid cs sid
        = (.ok j, [spotify.API.auth_request cid cs,
            spotify.API.get_request ("https://api.spotify.com/v1/tracks/" ++ sid)
              (Option.some [("Authorization", "Bearer " ++ t)])])) := by
  have hr : raise_for_status (env (spotify_api.SpotifyAPI.resource_request h
      ("v1/tracks/" ++ track_id) [])) = .error (.httpError 404) := by
    rw [raise_for_status, if_pos (by omega), h404]
  refine ⟨?_, ?_, ?_⟩
  · simp [spotify_api.SpotifyAPI.get_memoized, spotify_api.SpotifyAPI.raise_then_json, hr]
  · simp [spotify_api.TracksAPI.get_track, truthyOpt,
      spotify_api.SpotifyAPI.get_memoized, spotify_api.SpotifyAPI.raise_then_json,
      hr, spotify_api.except_http_return_none]
  · intro env2 cid cs sid t j henv hsong
    simp [spotify.SongAPI.get_song, spotify.API.get_auth_header, spotify.API.get,
      henv, hsong, Json.lookup, Json.pyStr, List.lookup]

/-- Witness for C4: concrete 404 environment. -/
theorem claim_C4_witness :
    (env404 (spotify_api.SpotifyAPI.resource_request hdr0 "v1/tracks/tid" [])).status
        = 404 ∧
    spotify_api.TracksAPI.get_track env404 c0 ⟨Option.some hdr0⟩ "tid" Option.none
      = (.ok Option.none, ⟨Option.some hdr0⟩,
         [spotify_api.SpotifyAPI.resource_request hdr0 "v1/tracks/tid" []]) ∧
    spotify.SongAPI.get_song env404 "x" "x" "tid"
      = (.ok (Json.obj [("error", Json.str "Not Found")]),
         [spotify.API.auth_request "x" "x",
          spotify.API.get_request "https://api.spotify.com/v1/tracks/tid"
            (Option.some [("Authorization", "Bearer tok")])]) := by
  have h := claim_C4 env404 c0 hdr0 "tid" (by decide)
  exact ⟨by decide, h.2.1,
    h.2.2 env404 "x" "x" "tid" "tok" (Json.obj [("error", Json.str "Not Found")]) rfl rfl⟩

/-- Counterexample to C4 as frozen: with the resource endpoint answering 404
(and a healthy token endpoint), `get_track` does not surface any error to its
caller — it returns `None`, the `HTTPError` having been swallowed. -/
theorem claim_C4_counterexample :
    (spotify_api.TracksAPI.get_track env404 c0 spotify_api.SpotifyAPI.initState
      "tid" Option.none).1 = .ok Option.none ∧
    (spotify_api.SpotifyAPI.get env404 c0 ⟨Option.some hdr0⟩ "v1/tracks/tid" []).1
      = .error (.httpError 404) := ⟨rfl, rfl⟩

/-- Claim C5 (amended): the wrapper dispatcher `SpotifyAPI.get` concatenates
`BASE_URL`, a slash and the endpoint, attaches the cached header, fails with an
`HTTPError` carrying the status exactly when `400 ≤ status < 600` (so a 3xx
response, though not 2xx, does NOT fail), and returns the parsed JSON body
otherwise; the legacy dispatcher `API.get` performs the GET on the
caller-supplied full URL with the caller-supplied headers and returns the raw
response — no status check, no JSON parsing. -/
theorem claim_C5 (env : Env) (c : spotify_api.SpotifyAPI.Client)
    (h : List (String × String)) (endpoint : String) (params : List (String × PVal))
    (url : String) (headers : Option (List (String × String))) :
    ((spotify_api.SpotifyAPI.resource_request h endpoint params).url
        = spotify_api.SpotifyAPI.BASE_URL ++ "/" ++ endpoint
      ∧ (spotify_api.SpotifyAPI.resource_request h endpoint params).headers = h) ∧
    (400 ≤ (env (spotify_api.SpotifyAPI.resource_request h endpoint params)).status →
      (env (spotify_api.SpotifyAPI.resource_request h endpoint params)).status < 600 →
      spotify_api.SpotifyAPI.get env c ⟨Option.some h⟩ endpoint params
        = (.error (.httpError
              (env (spotify_api.SpotifyAPI.resource_request h endpoint params)).status),
           ⟨Option.some h⟩, [spotify_api.SpotifyAPI.resource_request h endpoint params])) ∧
    ((env (spotify_api.SpotifyAPI.resource_request h endpoint params)).status < 400 →
      spotify_api.SpotifyAPI.get env c ⟨Option.some h⟩ endpoint params
        = (.ok (env (spotify_api.SpotifyAPI.resource_request h endpoint params)).body,
           ⟨Option.some h⟩, [spotify_api.SpotifyAPI.resource_request h endpoint params])) ∧
    spotify.API.get env url headers
      = (env (spotify.API.get_request url headers), [spotify.API.get_request url headers]) := by
  refine ⟨⟨rfl, rfl⟩, ?_, ?_, rfl⟩
  · intro h1 h2
    simp [spotify_api.SpotifyAPI.get_memoized, spotify_api.SpotifyAPI.raise_then_json,
      raise_for_status, if_pos (And.intro h1 h2)]
  · intro h1
    have hr : ¬(400 ≤ (env (spotify_api.SpotifyAPI.resource_request h endpoint params)).status ∧
        (env (spotify_api.SpotifyAPI.resource_request h endpoint params)).status < 600) := by
      omega
    simp [spotify_api.SpotifyAPI.get_memoized, spotify_api.SpotifyAPI.raise_then_json,
      raise_for_status, if_neg hr]

/-- Witness for C5: a 404 resource environment for the error branch and a 200
environment for the success branch. -/
theorem claim_C5_witness :
    400 ≤ (env404 (spotify_api.SpotifyAPI.resource_request hdr0 "v1/tracks/t" [])).status ∧
    spotify_api.SpotifyAPI.get env404 c0 ⟨Option.some hdr0⟩ "v1/tracks/t" []
      = (.error (.httpError 404), ⟨Option.some hdr0⟩,
         [spotify_api.SpotifyAPI.resource_request hdr0 "v1/tracks/t" []]) ∧
    spotify_api.SpotifyAPI.get env200 c0 ⟨Option.some hdr0⟩ "v1/tracks/t" []
      = (.ok (Json.obj [("access_token", Json.str "tok")]), ⟨Option.some hdr0⟩,
         [spotify_api.SpotifyAPI.resource_request hdr0 "v1/tracks/t" []]) := by
  refine ⟨by decide, ?_, ?_⟩
  · exact (claim_C5 env404 c0 hdr0 "v1/tracks/t" [] "u" Option.none).2.1
      (by decide) (by decide)
  · exact (claim_C5 env200 c0 hdr0 "v1/tracks/t" [] "u" Option.none).2.2.1 (by decide)

/-- Counterexample to C5 as frozen: the legacy dispatcher `API.get`, answered
404, fails with nothing — it returns the raw 404 response unparsed; and the
wrapper dispatcher, answered 304 (not 2xx), also does not fail: it returns the
parsed body. -/
theorem claim_C5_counterexample :
    (spotify.API.get env404 "https://api.spotify.com/v1/tracks/t"
        (Option.some hdr0)).1.status = 404 ∧
    (spotify_api.SpotifyAPI.get env304 c0 ⟨Option.some hdr0⟩ "v1/x" []).1
      = .ok (Json.str "cached") := ⟨rfl, rfl⟩

/-- Claim C6 (confirmed): when the caller leaves an optional filter parameter
unset (`market`, `include_groups`), that parameter's key does not occur in the
outbound request's encoded query — either the accessor omits the key from the
params dict (`get_track`) or it stores Python `None`, which `requests` drops
at encoding time (`get_artist_top_tracks`, `get_artist_albums`,
`get_album_tracks`). -/
theorem claim_C6 (env : Env) (c : spotify_api.SpotifyAPI.Client)
    (h : List (String × String)) (idstr : String) (limit offset : Int) :
    (∀ r ∈ (spotify_api.TracksAPI.get_track env c ⟨Option.some h⟩ idstr
        Option.none).2.2, "market" ∉ queryKeys r) ∧
    (∀ r ∈ (spotify_api.ArtistsAPI.get_artist_top_tracks env c ⟨Option.some h⟩ idstr
        Option.none).2.2, "market" ∉ queryKeys r) ∧
    (∀ r ∈ (spotify_api.ArtistsAPI.get_artist_albums env c ⟨Option.some h⟩ idstr
        Option.none Option.none limit offset).2.2,
      "include_groups" ∉ queryKeys r ∧ "market" ∉ queryKeys r) ∧
    (∀ r ∈ (spotify_api.AlbumsAPI.get_album_tracks env c ⟨Option.some h⟩ idstr
        Option.none limit offset).2.2, "market" ∉ queryKeys r) := by
  refine ⟨?_, ?_, ?_, ?_⟩
  · intro r hr
    simp [spotify_api.TracksAPI.get_track, truthyOpt,
      spotify_api.SpotifyAPI.get_memoized] at hr
    subst hr
    simp [queryKeys, encodeParams, encodePVal, spotify_api.SpotifyAPI.resource_request]
  · intro r hr
    simp [spotify_api.ArtistsAPI.get_artist_top_tracks, optPVal,
      spotify_api.SpotifyAPI.get_memoized] at hr
    subst hr
    simp [queryKeys, encodeParams, encodePVal, spotify_api.SpotifyAPI.resource_request,
      optPVal]
  · intro r hr
    simp [spotify_api.ArtistsAPI.get_artist_albums, optPVal,
      spotify_api.SpotifyAPI.get_memoized] at hr
    subst hr
    simp [queryKeys, encodeParams, encodePVal, spotify_api.SpotifyAPI.resource_request,
      optPVal]
  · intro r hr
    by_cases hl : limit > spotify_api.AlbumsAPI.MAX_TRACKS_PER_ALBUM
    · simp [spotify_api.AlbumsAPI.get_album_tracks, hl] at hr
    · simp [spotify_api.AlbumsAPI.get_album_tracks, hl, optPVal,
        spotify_api.SpotifyAPI.get_memoized] at hr
      subst hr
      simp [queryKeys, encodeParams, encodePVal, spotify_api.SpotifyAPI.resource_request,
        optPVal]

/-- Witness for C6: the concrete request dispatched by `get_track` without a
market carries no `market` query key. -/
theorem claim_C6_witness :
    spotify_api.SpotifyAPI.resource_request hdr0 "v1/tracks/a" []
        ∈ (spotify_api.TracksAPI.get_track env200 c0 ⟨Option.some hdr0⟩ "a"
            Option.none).2.2 ∧
    "market" ∉ queryKeys (spotify_api.SpotifyAPI.resource_request hdr0 "v1/tracks/a" []) := by
  have hmem : spotify_api.SpotifyAPI.resource_request hdr0 "v1/tracks/a" []
      ∈ (spotify_api.TracksAPI.get_track env200 c0 ⟨Option.some hdr0⟩ "a"
          Option.none).2.2 := by
    simp [spotify_api.TracksAPI.get_track, truthyOpt,
      spotify_api.SpotifyAPI.get_memoized]
  exact ⟨hmem, (claim_C6 env200 c0 hdr0 "a" 20 0).1 _ hmem⟩

/-- Claim C7 (amended): the batch accessors `get_tracks`,
`get_tracks_audio_features`, `get_artists` and `get_albums` do join their ID
lists into one comma-delimited `ids` query parameter; but `get_recommendations`
puts its three seed ID lists into the params mapping as list values, which
`requests` encodes as repeated keys — not as a single comma-joined value. -/
theorem claim_C7 (env : Env) (c : spotify_api.SpotifyAPI.Client)
    (h : List (String × String))
    (ids seed_artists seed_genres seed_tracks : List String) (limit : Int) :
    (ids.length ≤ 100 →
        (spotify_api.TracksAPI.get_tracks env c ⟨Option.some h⟩ ids
            Option.none).2.2.map (fun r => r.params)
          = [[("ids", PVal.str (String.intercalate "," ids))]]
      ∧ (spotify_api.TracksAPI.get_tracks_audio_features env c ⟨Option.some h⟩
            ids).2.2.map (fun r => r.params)
          = [[("ids", PVal.str (String.intercalate "," ids))]]
      ∧ (spotify_api.ArtistsAPI.get_artists env c ⟨Option.some h⟩ ids).2.2.map
            (fun r => r.params)
          = [[("ids", PVal.str (String.intercalate "," ids))]]) ∧
    (ids.length ≤ 20 →
        (spotify_api.AlbumsAPI.get_albums env c ⟨Option.some h⟩ ids
            Option.none).2.2.map (fun r => r.params)
          = [[("ids", PVal.str (String.intercalate "," ids))]]) ∧
    (spotify_api.TracksAPI.get_recommendations env c ⟨Option.some h⟩
        seed_artists seed_genres seed_tracks Option.none limit []).2.2.map
        (fun r => encodeParams r.params)
      = [("limit", toString limit) ::
          (seed_artists.map (fun x => ("seed_artists", x))
            ++ (seed_genres.map (fun x => ("seed_genres", x))
            ++ seed_tracks.map (fun x => ("seed_tracks", x))))] := by
  refine ⟨?_, ?_, ?_⟩
  · intro hle
    have hno : ¬ 100 < ids.length := by omega
    refine ⟨?_, ?_, ?_⟩ <;>
      simp [spotify_api.TracksAPI.get_tracks,
        spotify_api.TracksAPI.get_tracks_audio_features,
        spotify_api.ArtistsAPI.get_artists,
        spotify_api.TracksAPI.MAX_TRACK_IDS_PER_REQUEST,
        spotify_api.ArtistsAPI.MAX_ARTISTS_PER_REQUEST, hno, truthyOpt,
        spotify_api.SpotifyAPI.get_memoized, spotify_api.SpotifyAPI.resource_request]
  · intro hle
    have hno : ¬ 20 < ids.length := by omega
    simp [spotify_api.AlbumsAPI.get_albums,
      spotify_api.AlbumsAPI.MAX_ALBUMS_PER_REQUEST, hno, truthyOpt,
      spotify_api.SpotifyAPI.get_memoized, spotify_api.SpotifyAPI.resource_request]
  · simp [spotify_api.TracksAPI.get_recommendations, truthyOpt, dictUpdate,
      spotify_api.SpotifyAPI.get_memoized, spotify_api.SpotifyAPI.resource_request,
      encodeParams, encodePVal]

/-- Witness for C7: two concrete track ids are dispatched comma-joined. -/
theorem claim_C7_witness :
    (spotify_api.TracksAPI.get_tracks env200 c0 ⟨Option.some hdr0⟩ ["a", "b"]
        Option.none).2.2.map (fun r => r.params)
      = [[("ids", PVal.str "a,b")]] := by
  have h := ((claim_C7 env200 c0 hdr0 ["a", "b"] [] [] [] 20).1 (by decide)).1
  simpa using h

/-- Counterexample to C7 as frozen: `get_recommendations` takes ID lists but
sends them as repeated query keys (`seed_artists=a1&seed_artists=a2`), not as
one comma-delimited value under a single key. -/
theorem claim_C7_counterexample :
    (spotify_api.TracksAPI.get_recommendations env200 c0 ⟨Option.some hdr0⟩
        ["a1", "a2"] ["g1"] ["t1"] Option.none 20 []).2.2.map
        (fun r => encodeParams r.params)
      = [[("limit", "20"), ("seed_artists", "a1"), ("seed_artists", "a2"),
          ("seed_genres", "g1"), ("seed_tracks", "t1")]] := rfl

/-- Claim C8 (confirmed): on a 200 answer with JSON body `j` to the
single-track GET, the wrapper's `get_track` returns exactly `j` (wrapped in
the success case), and the legacy `get_song` likewise returns the decoded
body unchanged — no transformation, filtering or reshaping. -/
theorem claim_C8 (env : Env) (c : spotify_api.SpotifyAPI.Client)
    (h : List (String × String)) (track_id : String) (j : Json)
    (h200 : env (spotify_api.SpotifyAPI.resource_request h
        ("v1/tracks/" ++ track_id) []) = ⟨200, j⟩) :
    spotify_api.TracksAPI.get_track env c ⟨Option.some h⟩ track_id Option.none
      = (.ok (Option.some j), ⟨Option.some h⟩,
         [spotify_api.SpotifyAPI.resource_request h ("v1/tracks/" ++ track_id) []]) ∧
    (∀ (env2 : Env) (cid cs sid t : String) (j2 : Json),
      env2 (spotify.API.auth_request cid cs)
          = ⟨200, Json.obj [("access_token", Json.str t)]⟩ →
      env2 (spotify.API.get_request ("https://api.spotify.com/v1/tracks/" ++ sid)
          (Option.some [("Authorization", "Bearer " ++ t)])) = ⟨200, j2⟩ →
      (spotify.SongAPI.get_song env2 cid cs sid).1 = .ok j2) := by
  constructor
  · simp [spotify_api.TracksAPI.get_track, truthyOpt,
      spotify_api.SpotifyAPI.get_memoized, spotify_api.SpotifyAPI.raise_then_json,
      raise_for_status, h200, spotify_api.except_http_return_none]
  · intro env2 cid cs sid t j2 henv hsong
    simp [spotify.SongAPI.get_song, spotify.API.get_auth_header, spotify.API.get,
      henv, hsong, Json.lookup, Json.pyStr, List.lookup]

/-- Witness for C8: a concrete 200 body is passed through unchanged. -/
theorem claim_C8_witness :
    env200 (spotify_api.SpotifyAPI.resource_request hdr0 "v1/tracks/tid" [])
        = ⟨200, Json.obj [("access_token", Json.str "tok")]⟩ ∧
    (spotify_api.TracksAPI.get_track env200 c0 ⟨Option.some hdr0⟩ "tid" Option.none).1
        = .ok (Option.some (Json.obj [("access_token", Json.str "tok")])) ∧
    (spotify.SongAPI.get_song env200 "x" "x" "tid").1
        = .ok (Json.obj [("access_token", Json.str "tok")]) := by
  have h := claim_C8 env200 c0 hdr0 "tid" (Json.obj [("access_token", Json.str "tok")]) rfl
  refine ⟨rfl, ?_, ?_⟩
  · rw [h.1]
  · exact h.2 env200 "x" "x" "tid" "tok" (Json.obj [("access_token", Json.str "tok")]) rfl rfl

/-- Claim C9 (confirmed): `get_album_tracks` with `limit > 50` raises a
`ValueError` that no except clause catches (only `HTTPError` is), and
`get_new_releases` with `limit > 50` raises a `ValueError` that is caught and
re-raised as `ValueError("Failed to get new releases")`; in both cases the
error reaches the caller and no network request is issued. -/
theorem claim_C9 (env : Env) (c : spotify_api.SpotifyAPI.Client)
    (s : spotify_api.SpotifyAPI.State) (album_id : String)
    (market : Option String) (limit offset : Int) (hl : 50 < limit) :
    spotify_api.AlbumsAPI.get_album_tracks env c s album_id market limit offset
      = (.error (.valueError "Exceeded maximum tracks per album per request"), s, []) ∧
    spotify_api.AlbumsAPI.get_new_releases env c s limit offset
      = (.error (.valueError "Failed to get new releases"), s, []) := by
  constructor <;>
    simp [spotify_api.AlbumsAPI.get_album_tracks,
      spotify_api.AlbumsAPI.get_new_releases,
      spotify_api.AlbumsAPI.MAX_TRACKS_PER_ALBUM,
      spotify_api.AlbumsAPI.MAX_ALBUMS_TO_RETURN, hl]

/-- Witness for C9: limit 51 fails both accessors before any network call. -/
theorem claim_C9_witness :
    (50 : Int) < 51 ∧
    spotify_api.AlbumsAPI.get_album_tracks env200 c0 spotify_api.SpotifyAPI.initState
        "aid" Option.none 51 0
      = (.error (.valueError "Exceeded maximum tracks per album per request"),
         spotify_api.SpotifyAPI.initState, []) ∧
    spotify_api.AlbumsAPI.get_new_releases env200 c0 spotify_api.SpotifyAPI.initState 51 0
      = (.error (.valueError "Failed to get new releases"),
         spotify_api.SpotifyAPI.initState, []) := by
  have h := claim_C9 env200 c0 spotify_api.SpotifyAPI.initState "aid" Option.none 51 0
    (by decide)
  exact ⟨by decide, h.1, h.2⟩

/-- Claim C10 (confirmed): both implementation variants construct the
identical token-exchange request — POST to
`https://accounts.spotify.com/api/token` with `Authorization: Basic
base64(client_id + ":" + client_secret)` and body
`grant_type=client_credentials` — and on a 200 response with `access_token`
both produce the header `Authorization: Bearer <token>`. -/
theorem claim_C10 (cid cs : String) :
    spotify.API.auth_request cid cs
      = spotify_api.SpotifyAPI.token_request ⟨cid, cs⟩ ∧
    (∀ (env : Env) (t : String),
      env (spotify.API.auth_request cid cs)
          = ⟨200, Json.obj [("access_token", Json.str t)]⟩ →
      spotify.API.get_auth_header env cid cs
          = (.ok (Option.some [("Authorization", "Bearer " ++ t)]),
             [spotify.API.auth_request cid cs]) ∧
      spotify_api.SpotifyAPI._get_auth_header env ⟨cid, cs⟩
          = (.ok [("Authorization", "Bearer " ++ t)],
             [spotify_api.SpotifyAPI.token_request ⟨cid, cs⟩])) := by
  refine ⟨rfl, ?_⟩
  intro env t henv
  have henv' : env (spotify_api.SpotifyAPI.token_request ⟨cid, cs⟩)
      = ⟨200, Json.obj [("access_token", Json.str t)]⟩ := henv
  constructor
  · simp [spotify.API.get_auth_header, henv, Json.lookup, Json.pyStr, List.lookup]
  · have hok := spotify_api.SpotifyAPI._get_auth_header_ok env ⟨cid, cs⟩ (Json.str t)
      (by rw [henv']; simp) (by rw [henv']; simp [Json.lookup, List.lookup])
    simpa [Json.pyStr] using hok

/-- Witness for C10: concrete credentials and token. -/
theorem claim_C10_witness :
    spotify.API.auth_request "x" "x" = spotify_api.SpotifyAPI.token_request c0 ∧
    spotify.API.get_auth_header env200 "x" "x"
      = (.ok (Option.some [("Authorization", "Bearer tok")]),
         [spotify.API.auth_request "x" "x"]) ∧
    spotify_api.SpotifyAPI._get_auth_header env200 c0
      = (.ok [("Authorization", "Bearer tok")],
         [spotify_api.SpotifyAPI.token_request c0]) := by
  have h := claim_C10 "x" "x"
  have h2 := h.2 env200 "tok" rfl
  exact ⟨h.1, h2.1, h2.2⟩

